import Mathlib

/-!
Shallow embedding of the simulation core of the Kh7DesignGame repository
(src/main.py, src/entities.py, src/settings.py) and proofs about it.

Conventions of the embedding:
* pygame.Rect coordinates are integers; float quantities (velocities, timers,
  delta-time) are rationals.
* Python's int() conversion and pygame's float-to-coordinate assignment both
  truncate toward zero; this is the function pyInt below.
* Python's floor division and modulo by a positive divisor coincide with
  Int.ediv and Int.emod, which are used throughout.
* Randomness (the Python random module) is modelled by an explicit source of
  random values threaded through the functions that draw from it; the source
  carries the documented contracts of random.randint and random.sample.
-/

namespace Kh7Design

/-- Truncation toward zero: the semantics of Python's int() on a float and of
assigning a float to a pygame.Rect coordinate. -/
def pyInt (q : ℚ) : ℤ := if 0 ≤ q then ⌊q⌋ else ⌈q⌉

/-- Axis-aligned rectangle with integer coordinates, as pygame.Rect stores
them.  All rectangles built by the game have nonnegative sizes. -/
structure Rect where
  x : ℤ
  y : ℤ
  w : ℤ
  h : ℤ
deriving DecidableEq, Repr

def Rect.left (r : Rect) : ℤ := r.x

def Rect.right (r : Rect) : ℤ := r.x + r.w

def Rect.top (r : Rect) : ℤ := r.y

def Rect.bottom (r : Rect) : ℤ := r.y + r.h

/-- pygame.Rect.centerx, x + width // 2 (widths are nonnegative in the game,
so any integer-division convention agrees; Euclidean division is used). -/
def Rect.centerx (r : Rect) : ℤ := r.x + r.w / 2

def Rect.centery (r : Rect) : ℤ := r.y + r.h / 2

/-- pygame.Rect.colliderect: strict overlap on both axes; rectangles that
merely touch along an edge do not collide. -/
def collide (a b : Rect) : Bool :=
  decide (a.x < b.x + b.w) && decide (a.x + a.w > b.x) &&
  decide (a.y < b.y + b.h) && decide (a.y + a.h > b.y)

/-! Constants from settings.py (only the ones the embedded core uses). -/

def WIDTH : ℤ := 800

def HEIGHT : ℤ := 600

def GROUND_HEIGHT : ℤ := 50

def PLAYER_SPEED : ℚ := 350

def PLAYER_SIZE : ℤ × ℤ := (60, 40)

def PLAYER_COOLDOWN : ℚ := 1/4

def PLAYER_INVULNERABILITY_TIME : ℚ := 2

def METEOR_MIN_SPEED : ℚ := 80

def METEOR_MAX_SPEED : ℚ := 220

def METEOR_SPAWN_INTERVAL : ℚ := 9/10

def METEOR_SIZE_MIN : ℤ × ℤ := (30, 30)

def METEOR_SIZE_MAX : ℤ × ℤ := (100, 100)

def LASER_SPEED : ℚ := 500

def LASER_SIZE : ℤ × ℤ := (18, 6)

def ASTRONAUT_SPEED : ℚ := 250

def ASTRONAUT_SIZE : ℤ × ℤ := (30, 50)

def ASTRONAUT_JUMP_STRENGTH : ℚ := 600

def ASTRONAUT_GRAVITY : ℚ := 800

def ASTRONAUT_COOLDOWN : ℚ := 3/10

def ASTRONAUT_LASER_SPEED : ℚ := 400

def ASTRONAUT_LASER_SIZE : ℤ × ℤ := (12, 4)

def ALIEN_SIZE : ℤ × ℤ := (40, 40)

def ALIEN_SPEED : ℚ := 50

def ALIEN_PATROL_DISTANCE : ℤ := 100

def PLATFORM_COLOR : ℤ × ℤ × ℤ := (120, 100, 80)

def MINIMAP_WORLD_EXTRA : ℤ := 680

/-! Entities (entities.py). -/

/-- Laser dataclass: a projectile rectangle plus its velocity. -/
structure Laser where
  rect : Rect
  velocity : ℚ × ℚ
deriving DecidableEq, Repr

/-- Laser.update: integrates only the x coordinate by velocity.x * dt. -/
def Laser.update (l : Laser) (dt : ℚ) : Laser :=
  { l with rect := { l.rect with x := pyInt ((l.rect.x : ℚ) + l.velocity.1 * dt) } }

/-- Laser.is_offscreen: off the screen in either horizontal direction. -/
def Laser.is_offscreen (l : Laser) : Bool :=
  decide (l.rect.left > WIDTH) || decide (l.rect.right < 0)

/-- Meteor dataclass. -/
structure Meteor where
  rect : Rect
  velocity : ℚ × ℚ
deriving DecidableEq, Repr

/-- Meteor.update: integrates both coordinates. -/
def Meteor.update (m : Meteor) (dt : ℚ) : Meteor :=
  { m with rect := { m.rect with
      x := pyInt ((m.rect.x : ℚ) + m.velocity.1 * dt),
      y := pyInt ((m.rect.y : ℚ) + m.velocity.2 * dt) } }

/-- Meteor.is_offscreen: fully past the left edge. -/
def Meteor.is_offscreen (m : Meteor) : Bool :=
  decide (m.rect.right < 0)

/-- Platform dataclass. -/
structure Platform where
  rect : Rect
  color : ℤ × ℤ × ℤ
deriving DecidableEq, Repr

/-- Player (the ship). -/
structure Player where
  rect : Rect
  speed : ℚ
  cooldown : ℚ
  cooldown_timer : ℚ
  lasers : List Laser
  invulnerable_timer : ℚ
deriving DecidableEq

/-- Player.try_shoot: refuses while the cooldown timer is positive; otherwise
appends one laser at the ship's right edge and resets the cooldown timer. -/
def Player.try_shoot (p : Player) : Bool × Player :=
  if p.cooldown_timer > 0 then (false, p)
  else
    let lx := p.rect.right
    let ly := p.rect.centery - LASER_SIZE.2 / 2
    let laser : Laser := ⟨⟨lx, ly, LASER_SIZE.1, LASER_SIZE.2⟩, (LASER_SPEED, 0)⟩
    (true, { p with lasers := p.lasers ++ [laser], cooldown_timer := p.cooldown })

def Player.set_invulnerable (p : Player) : Player :=
  { p with invulnerable_timer := PLAYER_INVULNERABILITY_TIME }

def Player.is_invulnerable (p : Player) : Bool :=
  decide (p.invulnerable_timer > 0)

/-- Alien: patrol body bound to a platform. -/
structure Alien where
  rect : Rect
  platform : Platform
  speed : ℚ
  direction : ℤ
  start_x : ℤ
  patrol_distance : ℤ
  alive : Bool
deriving DecidableEq

/-- Alien.__init__ as written in entities.py: builds the rectangle centered at
position.1 with its bottom on the platform top.  It accepts exactly two
arguments besides self (position and platform). -/
def Alien.init (position : ℤ × ℤ) (platform : Platform) : Alien :=
  { rect := ⟨position.1 - ALIEN_SIZE.1 / 2, platform.rect.top - ALIEN_SIZE.2,
             ALIEN_SIZE.1, ALIEN_SIZE.2⟩
    platform := platform
    speed := ALIEN_SPEED
    direction := 1
    start_x := position.1 - ALIEN_SIZE.1 / 2 + ALIEN_SIZE.1 / 2
    patrol_distance := ALIEN_PATROL_DISTANCE
    alive := true }

/-- Astronaut (the gravity actor). -/
structure Astronaut where
  rect : Rect
  velocity : ℚ × ℚ
  speed : ℚ
  jump_strength : ℚ
  gravity : ℚ
  on_ground : Bool
  facing_right : Bool
  invulnerable_timer : ℚ
  cooldown : ℚ
  cooldown_timer : ℚ
  lasers : List Laser
deriving DecidableEq

/-- Gravity application, first statement of Astronaut.update. -/
def astronautGravityStep (a : Astronaut) (dt : ℚ) : Astronaut :=
  { a with velocity := (a.velocity.1, a.velocity.2 + a.gravity * dt) }

/-- Horizontal input resolution of Astronaut.update: directional keys set the
velocity, otherwise friction scales it by 0.8 and snaps below 10 to zero. -/
def astronautHorizontalStep (a : Astronaut) (move_left move_right : Bool) : Astronaut :=
  if move_left then { a with velocity := (-a.speed, a.velocity.2), facing_right := false }
  else if move_right then { a with velocity := (a.speed, a.velocity.2), facing_right := true }
  else
    let vx := a.velocity.1 * (4/5)
    let vx := if |vx| < 10 then 0 else vx
    { a with velocity := (vx, a.velocity.2) }

/-- Jump step of Astronaut.update: only from the ground, overwriting the
vertical velocity and clearing on_ground. -/
def astronautJumpStep (a : Astronaut) (jump : Bool) : Astronaut :=
  if jump && a.on_ground then
    { a with velocity := (a.velocity.1, -a.jump_strength), on_ground := false }
  else a

/-- The input phase of Astronaut.update: gravity, then horizontal input, then
the jump test, in source order. -/
def astronautInputPhase (a : Astronaut) (dt : ℚ) (move_left move_right jump : Bool) : Astronaut :=
  astronautJumpStep (astronautHorizontalStep (astronautGravityStep a dt) move_left move_right) jump

/-- Horizontal position integration of Astronaut.update. -/
def astronautMoveX (a : Astronaut) (dt : ℚ) : Astronaut :=
  { a with rect := { a.rect with x := a.rect.x + pyInt (a.velocity.1 * dt) } }

/-- Horizontal collision pass of Astronaut.update: the loop breaks at the first
colliding platform, pushes the actor out along x according to the sign of the
horizontal velocity, and zeroes the horizontal velocity. -/
def astronautResolveHorizontal (a : Astronaut) (platforms : List Platform) : Astronaut :=
  match platforms.find? (fun p => collide a.rect p.rect) with
  | none => a
  | some p =>
    let r :=
      if a.velocity.1 > 0 then { a.rect with x := p.rect.left - a.rect.w }
      else if a.velocity.1 < 0 then { a.rect with x := p.rect.right }
      else a.rect
    { a with rect := r, velocity := (0, a.velocity.2) }

/-- Vertical position integration of Astronaut.update, which also resets
on_ground before the vertical collision pass. -/
def astronautMoveY (a : Astronaut) (dt : ℚ) : Astronaut :=
  { a with rect := { a.rect with y := a.rect.y + pyInt (a.velocity.2 * dt) },
           on_ground := false }

/-- Vertical collision pass of Astronaut.update: break at the first colliding
platform; falling snaps to the platform top and lands, rising snaps to the
platform bottom; the vertical velocity is zeroed in both moving cases. -/
def astronautResolveVertical (a : Astronaut) (platforms : List Platform) : Astronaut :=
  match platforms.find? (fun p => collide a.rect p.rect) with
  | none => a
  | some p =>
    if a.velocity.2 > 0 then
      { a with rect := { a.rect with y := p.rect.top - a.rect.h },
               velocity := (a.velocity.1, 0), on_ground := true }
    else if a.velocity.2 < 0 then
      { a with rect := { a.rect with y := p.rect.bottom },
               velocity := (a.velocity.1, 0) }
    else a

/-- Screen clamping and death-pit respawn at the end of Astronaut.update. -/
def astronautClampRespawn (a : Astronaut) : Astronaut :=
  let a := { a with rect := { a.rect with x := max 0 (min (WIDTH - a.rect.w) a.rect.x) } }
  if a.rect.top > HEIGHT then
    { a with rect := { a.rect with x := WIDTH.ediv 2, y := 100 }, velocity := (0, 0) }
  else a

/-- Timer decrements and laser integration/pruning at the end of
Astronaut.update. -/
def astronautTimersLasers (a : Astronaut) (dt : ℚ) : Astronaut :=
  let a := if a.invulnerable_timer > 0
           then { a with invulnerable_timer := a.invulnerable_timer - dt } else a
  let a := { a with lasers :=
    (a.lasers.map (fun l => Laser.update l dt)).filter (fun l => !l.is_offscreen) }
  if a.cooldown_timer > 0 then { a with cooldown_timer := a.cooldown_timer - dt } else a

/-- Astronaut.update: the full per-tick update, in source statement order. -/
def Astronaut.update (a : Astronaut) (dt : ℚ) (platforms : List Platform)
    (move_left move_right jump : Bool) : Astronaut :=
  let a := astronautInputPhase a dt move_left move_right jump
  let a := astronautResolveHorizontal (astronautMoveX a dt) platforms
  let a := astronautResolveVertical (astronautMoveY a dt) platforms
  astronautTimersLasers (astronautClampRespawn a) dt

def Astronaut.set_invulnerable (a : Astronaut) : Astronaut :=
  { a with invulnerable_timer := PLAYER_INVULNERABILITY_TIME }

def Astronaut.is_invulnerable (a : Astronaut) : Bool :=
  decide (a.invulnerable_timer > 0)

/-- Astronaut.try_shoot: same cooldown gate as the ship; the muzzle offset and
velocity sign follow facing_right. -/
def Astronaut.try_shoot (a : Astronaut) : Bool × Astronaut :=
  if a.cooldown_timer > 0 then (false, a)
  else
    let laser : Laser :=
      if a.facing_right then
        ⟨⟨a.rect.right, a.rect.centery - ASTRONAUT_LASER_SIZE.2 / 2,
          ASTRONAUT_LASER_SIZE.1, ASTRONAUT_LASER_SIZE.2⟩, (ASTRONAUT_LASER_SPEED, 0)⟩
      else
        ⟨⟨a.rect.left - ASTRONAUT_LASER_SIZE.1, a.rect.centery - ASTRONAUT_LASER_SIZE.2 / 2,
          ASTRONAUT_LASER_SIZE.1, ASTRONAUT_LASER_SIZE.2⟩, (-ASTRONAUT_LASER_SPEED, 0)⟩
    (true, { a with lasers := a.lasers ++ [laser], cooldown_timer := a.cooldown })

/-! Session-level pieces (main.py). -/

/-- Game states of the session. -/
inductive GameState
  | MENU
  | PLAYING
  | PAUSED
  | GAME_OVER
deriving DecidableEq, Repr

/-- Fixed duration of the level-completion message, set in Game.__init__. -/
def levelCompleteMessageDuration : ℚ := 3

/-- Level-completion check of Game.update_gameplay (lines 588-601): evaluated
only when no completion countdown is running; starts the countdown when all
aliens are dead and the destroyed-meteor count has reached the requirement. -/
def completionCheck (timer : ℚ) (aliens : List Alien) (kills required : ℤ) : ℚ :=
  if timer = 0 then
    let alive_aliens := aliens.countP (fun al => al.alive)
    if alive_aliens = 0 ∧ kills ≥ required then levelCompleteMessageDuration else timer
  else timer

/-- Witness for astronaut_jump_spec at a concrete grounded astronaut. -/
def witnessGroundedAstronaut : Astronaut :=
  ⟨⟨400, 500, 30, 50⟩, (0, 0), 250, 600, 800, true, true, 0, 3/10, 0, []⟩

/-- Witness for astronaut_jump_spec at a concrete airborne astronaut. -/
def witnessAirborneAstronaut : Astronaut :=
  ⟨⟨400, 300, 30, 50⟩, (0, -100), 250, 600, 800, false, true, 0, 3/10, 0, []⟩

/-- Witness players and astronauts for the cooldown specification. -/
def witnessPlayerCooling : Player := ⟨⟨100, 100, 60, 40⟩, 350, 1/4, 1/10, [], 0⟩

def witnessPlayerReady : Player := ⟨⟨100, 100, 60, 40⟩, 350, 1/4, 0, [], 0⟩

def witnessAstronautCooling : Astronaut :=
  ⟨⟨400, 500, 30, 50⟩, (0, 0), 250, 600, 800, true, true, 0, 3/10, 1/10, []⟩

/-- Concrete actor overlapping a platform with zero velocity, for the C4
counterexample. -/
def overlapAstronaut : Astronaut :=
  ⟨⟨100, 100, 30, 50⟩, (0, 0), 250, 600, 800, false, true, 0, 3/10, 0, []⟩

def overlapPlatform : Platform := ⟨⟨90, 90, 200, 20⟩, PLATFORM_COLOR⟩

/-- Witness platform setup for the push-out specification. -/
def pushoutAstronaut : Astronaut :=
  ⟨⟨100, 100, 30, 50⟩, (5, 7), 250, 600, 800, false, true, 0, 3/10, 0, []⟩

/-! Randomness and the spawner/wave controller. -/

/-- Abstract source of randomness modelling Python's random module: a state
type, the seeding function (random.seed replaces the global state by a
function of its argument), and draw operations threaded through the state.
The contract fields are the documented guarantees of random.randint
(inclusive integer bounds) and random.sample (k elements drawn from the
population when k does not exceed its size). -/
structure RandomSource where
  σ : Type
  seed : ℤ → σ
  randint : σ → ℤ → ℤ → ℤ × σ
  uniform : σ → ℚ → ℚ → ℚ × σ
  sample : σ → List Platform → ℕ → List Platform × σ
  randint_mem : ∀ s a b, a ≤ b → a ≤ (randint s a b).1 ∧ (randint s a b).1 ≤ b
  sample_length : ∀ s l k, k ≤ l.length → ((sample s l k).1).length = k

/-- A concrete random source used to instantiate the specifications: it
always returns the lower end of the requested range and samples the first k
elements of the population. -/
def lowSource : RandomSource :=
  { σ := ℤ
    seed := fun n => n
    randint := fun s a _ => (a, s + 1)
    uniform := fun s a _ => (a, s + 1)
    sample := fun s l k => (l.take k, s + 1)
    randint_mem := fun _ a _ h => ⟨le_refl a, h⟩
    sample_length := fun _ l k h => by simp [List.length_take]; omega }

/-- MeteorSpawner state. -/
structure MeteorSpawner where
  spawn_interval : ℚ
  timer : ℚ
  meteors : List Meteor
deriving DecidableEq

/-- MeteorSpawner.spawn_meteor: one meteor at a randomized offscreen-right
position, with leftward horizontal speed and jittered vertical speed. -/
def MeteorSpawner.spawn_meteor (R : RandomSource) (sp : MeteorSpawner) (s : R.σ) :
    MeteorSpawner × R.σ :=
  let wd := R.randint s METEOR_SIZE_MIN.1 METEOR_SIZE_MAX.1
  let hd := R.randint wd.2 METEOR_SIZE_MIN.2 METEOR_SIZE_MAX.2
  let buffer := max 60 (pyInt ((MINIMAP_WORLD_EXTRA : ℚ) * (4/10)))
  let dxd := R.randint hd.2 (-buffer) buffer
  let x := WIDTH + MINIMAP_WORLD_EXTRA + dxd.1
  let yd := R.randint dxd.2 0 (HEIGHT - hd.1)
  let vd := R.uniform yd.2 METEOR_MIN_SPEED METEOR_MAX_SPEED
  let vyd := R.uniform vd.2 (-60) 60
  ({ sp with meteors := sp.meteors ++ [⟨⟨x, yd.1, wd.1, hd.1⟩, (-vd.1, vyd.1)⟩] }, vyd.2)

/-- MeteorSpawner.update: accumulate the timer; on reaching the interval,
reset it and spawn one meteor; then integrate and prune all meteors. -/
def MeteorSpawner.update (R : RandomSource) (sp : MeteorSpawner) (dt : ℚ) (s : R.σ) :
    MeteorSpawner × R.σ :=
  let sp1 := { sp with timer := sp.timer + dt }
  let sp2 := if sp1.timer ≥ sp1.spawn_interval
             then MeteorSpawner.spawn_meteor R { sp1 with timer := 0 } s
             else (sp1, s)
  let pruned := (sp2.1.meteors.map (fun m => Meteor.update m dt)).filter (fun m => !m.is_offscreen)
  ({ sp2.1 with meteors := pruned }, sp2.2)

/-- LevelConfig record (main.py). -/
structure LevelConfig where
  level : ℤ
  alien_count : ℤ
  alien_speed : ℚ
  meteor_spawn_interval : ℚ
  meteor_min_speed : ℚ
  meteor_max_speed : ℚ
  required_meteors : ℤ
  meteor_waves : ℤ
  meteors_destroyed : ℤ
deriving DecidableEq

/-- LevelConfig.get_level_config: the per-level difficulty derivations. -/
def LevelConfig.get_level_config (level : ℤ) : LevelConfig :=
  { level := level
    alien_count := min 8 (3 + level)
    alien_speed := ALIEN_SPEED + (level : ℚ) * 10
    meteor_spawn_interval := max (3/10) (METEOR_SPAWN_INTERVAL - min (3/10) ((level : ℚ) * (5/100)))
    meteor_min_speed := METEOR_MIN_SPEED + (level : ℚ) * 20
    meteor_max_speed := METEOR_MAX_SPEED + (level : ℚ) * 20
    required_meteors := max 5 (5 + level * 2)
    meteor_waves := 1 + (level - 1).ediv 3
    meteors_destroyed := 0 }

/-- The session's wave bookkeeping fields together with the spawner. -/
structure ShipWaveState where
  spawner : MeteorSpawner
  current_wave : ℤ
  meteors_in_wave : ℤ
  wave_complete : Bool
deriving DecidableEq

/-- Wave-advance block of Game.update_gameplay (lines 487-498): only runs the
bookkeeping when the current wave is flagged complete and no meteors remain;
advancing to a next wave also resets the spawn timer. -/
def waveAdvanceStep (cfg : LevelConfig) (st : ShipWaveState) : ShipWaveState :=
  if st.wave_complete = true ∧ st.spawner.meteors.length = 0 then
    if st.current_wave < cfg.meteor_waves - 1 then
      { st with current_wave := st.current_wave + 1, meteors_in_wave := 0,
                wave_complete := false, spawner := { st.spawner with timer := 0 } }
    else { st with meteors_in_wave := 0, wave_complete := false }
  else st

/-- Display-only wave accounting of Game.update_gameplay (lines 505-519). -/
def waveDisplayStep (cfg : LevelConfig) (st : ShipWaveState) : ShipWaveState :=
  if st.current_wave < cfg.meteor_waves then
    let mpw := cfg.required_meteors.ediv cfg.meteor_waves +
      (if st.current_wave = cfg.meteor_waves - 1
       then cfg.required_meteors.emod cfg.meteor_waves else 0)
    if st.wave_complete = false then
      let st1 := if (st.spawner.meteors.length : ℤ) > st.meteors_in_wave
                 then { st with meteors_in_wave := (st.spawner.meteors.length : ℤ) } else st
      if st1.meteors_in_wave ≥ mpw then { st1 with wave_complete := true } else st1
    else st
  else st

/-- Meteor-generation block of Game.update_gameplay in Ship mode (lines
479-524): while the kill target is unmet the spawner is updated after the
advisory wave bookkeeping; once the target is met only the existing meteors
are integrated and pruned. -/
def shipMeteorPhase (R : RandomSource) (cfg : LevelConfig) (st : ShipWaveState)
    (dt : ℚ) (s : R.σ) : ShipWaveState × R.σ :=
  if cfg.meteors_destroyed < cfg.required_meteors then
    let st1 := waveAdvanceStep cfg st
    let upd := MeteorSpawner.update R st1.spawner dt s
    (waveDisplayStep cfg { st1 with spawner := upd.1 }, upd.2)
  else
    let pruned := (st.spawner.meteors.map (fun m => Meteor.update m dt)).filter (fun m => !m.is_offscreen)
    ({ st with spawner := { st.spawner with meteors := pruned } }, s)

/-- Witness inputs for the spawning gate specification. -/
def witnessSpawner : MeteorSpawner := ⟨9/10, 0, [⟨⟨500, 300, 40, 40⟩, (-100, 0)⟩]⟩

def witnessWaveState : ShipWaveState := ⟨witnessSpawner, 0, 0, true⟩

def witnessConfigUnmet : LevelConfig := ⟨1, 4, 60, 17/20, 100, 240, 7, 1, 3⟩

def witnessConfigMet : LevelConfig := ⟨1, 4, 60, 17/20, 100, 240, 7, 1, 7⟩

/-! Meteor-player contact (C10). -/

/-- The slice of the session state touched by the meteor-player collision
block. -/
structure ShipCollisionState where
  meteors : List Meteor
  player : Player
  lives : ℤ
  score : ℤ
  state : GameState
deriving DecidableEq

/-- Meteor-player collision block of Game.update_gameplay (lines 539-548):
the first colliding meteor is removed unconditionally; damage, invulnerability
and the game-over transition apply only when the player is vulnerable; the
loop breaks after the first hit and never touches the score. -/
def meteorPlayerCollisions (g : ShipCollisionState) : ShipCollisionState :=
  match g.meteors.find? (fun m => collide m.rect g.player.rect) with
  | none => g
  | some m =>
    let meteors := g.meteors.erase m
    if g.player.is_invulnerable then { g with meteors := meteors }
    else
      let lives := g.lives - 1
      let player := g.player.set_invulnerable
      let state := if lives ≤ 0 then GameState.GAME_OVER else g.state
      { g with meteors := meteors, player := player, lives := lives, state := state }

/-- Witness state for the invulnerable-contact frame property. -/
def witnessContactMeteor : Meteor := ⟨⟨100, 100, 40, 40⟩, (-100, 0)⟩

def witnessContactState : ShipCollisionState :=
  { meteors := [witnessContactMeteor, ⟨⟨500, 300, 40, 40⟩, (-100, 0)⟩]
    player := ⟨⟨100, 100, 60, 40⟩, 350, 1/4, 0, [], 1⟩
    lives := 3
    score := 0
    state := GameState.PLAYING }

/-! Procedural platform generator (Game._create_platforms). -/

/-- Provenance of a generated rectangle: the always-present ground, the
near-ground first layer, a candidate that passed the overlap and reachability
checks, or the exhausted-attempts fallback. -/
inductive PlatTag
  | ground
  | layer1
  | checked
  | fallback
deriving DecidableEq, Repr

def groundLevel : ℤ := HEIGHT - GROUND_HEIGHT

def groundRect : Rect := ⟨0, groundLevel, WIDTH, GROUND_HEIGHT⟩

/-- The one-pixel-high rectangle _create_platforms uses as the jump reference
when checking reachability from the ground. -/
def groundCheckRect : Rect := ⟨0, groundLevel, WIDTH, 1⟩

/-- Maximum jump height, jumpStrength squared over twice the gravity. -/
def maxJumpHeight : ℚ := ASTRONAUT_JUMP_STRENGTH ^ 2 / (2 * ASTRONAUT_GRAVITY)

/-- Maximum horizontal jump distance, 1.5 times the maximum jump height. -/
def maxJumpDistance : ℚ := maxJumpHeight * (3/2)

/-- Game._can_reach: the candidate is within horizontal reach and lies above
the reference by at most the maximum jump height. -/
def can_reach (frm dst : Rect) (mjh mjd : ℚ) : Bool :=
  let dx := |dst.centerx - frm.centerx|
  let dy := frm.top - dst.top
  decide ((dx : ℚ) ≤ mjd) && decide (dy ≥ 0) && decide ((dy : ℚ) ≤ mjh)

/-- Overlap test of a candidate against the rectangles placed so far. -/
def overlapsAny (rects : List (Rect × PlatTag)) (r : Rect) : Bool :=
  rects.any (fun q => collide r q.1)

/-- One iteration of the first-layer loop: a platform 80 to 140 pixels above
the ground at a random horizontal position, width clamped to the screen. -/
def layer1Step (R : RandomSource) (st : List (Rect × PlatTag) × R.σ) :
    List (Rect × PlatTag) × R.σ :=
  let kd := R.randint st.2 80 140
  let y := groundLevel - kd.1
  let xd := R.randint kd.2 40 (WIDTH - 180)
  let wd := R.randint xd.2 120 200
  let w := if xd.1 + wd.1 > WIDTH - 20 then WIDTH - xd.1 - 20 else wd.1
  (st.1 ++ [(⟨xd.1, y, w, 20⟩, PlatTag.layer1)], wd.2)

/-- One candidate of the placement attempt loop: vertical position drawn
around the layer base and clamped into the band, random x and width. -/
def attemptCandidate (R : RandomSource) (base rng : ℚ) (s : R.σ) : Rect × R.σ :=
  let ud := R.uniform s (-(rng/2)) (rng/2)
  let y0 := pyInt (base + ud.1)
  let y := max 120 (min (groundLevel - 60) y0)
  let xd := R.randint ud.2 30 (WIDTH - 150)
  let wd := R.randint xd.2 100 220
  let w := if xd.1 + wd.1 > WIDTH - 20 then WIDTH - xd.1 - 20 else wd.1
  (⟨xd.1, y, w, 20⟩, wd.2)

/-- The reachability side of the candidate check: against the ground for the
first upper layer, against any already-placed rectangle otherwise. -/
def reachCheck (layerIdx : ℕ) (rects : List (Rect × PlatTag)) (r : Rect) : Bool :=
  if layerIdx = 0 then can_reach groundCheckRect r maxJumpHeight maxJumpDistance
  else rects.any (fun q => can_reach q.1 r maxJumpHeight maxJumpDistance)

/-- The bounded attempt loop of _create_platforms (up to 50 attempts): draw a
candidate, reject it on overlap or unreachability, accept it otherwise. -/
def attemptLoop (R : RandomSource) (layerIdx : ℕ) (base rng : ℚ)
    (rects : List (Rect × PlatTag)) : ℕ → R.σ → Option Rect × R.σ
  | 0, s => (none, s)
  | fuel + 1, s =>
    let cand := attemptCandidate R base rng s
    if overlapsAny rects cand.1 then attemptLoop R layerIdx base rng rects fuel cand.2
    else if reachCheck layerIdx rects cand.1 then (some cand.1, cand.2)
    else attemptLoop R layerIdx base rng rects fuel cand.2

/-- The exhausted-attempts fallback: a platform near the last placed one,
bypassing the reachability search, silently skipped if it overlaps. -/
def fallbackStep (R : RandomSource) (base : ℚ) (st : List (Rect × PlatTag) × R.σ) :
    List (Rect × PlatTag) × R.σ :=
  match st.1.getLast? with
  | none => st
  | some last =>
    let y := pyInt base
    let bound := pyInt (maxJumpDistance * (7/10))
    let offd := R.randint st.2 (-bound) bound
    let x := max 30 (min (WIDTH - 150) (last.1.centerx + offd.1))
    let wd := R.randint offd.2 100 180
    let w := if x + wd.1 > WIDTH - 20 then WIDTH - x - 20 else wd.1
    let newRect : Rect := ⟨x, y, w, 20⟩
    if overlapsAny st.1 newRect then (st.1, wd.2)
    else (st.1 ++ [(newRect, PlatTag.fallback)], wd.2)

/-- Place one upper-layer platform: run the attempt loop with 50 attempts and
fall back when it fails. -/
def placeOne (R : RandomSource) (layerIdx : ℕ) (base rng : ℚ)
    (st : List (Rect × PlatTag) × R.σ) : List (Rect × PlatTag) × R.σ :=
  let res := attemptLoop R layerIdx base rng st.1 50 st.2
  match res.1 with
  | some r => (st.1 ++ [(r, PlatTag.checked)], res.2)
  | none => fallbackStep R base (st.1, res.2)

/-- Bounded iteration (for _ in range(n)). -/
def iterN {α : Type} (f : α → α) : ℕ → α → α
  | 0, a => a
  | n + 1, a => iterN f n (f a)

/-- One vertical layer of the upper-platform loop: the last layer also takes
the division remainder. -/
def layerStep (R : RandomSource) (num_layers remaining : ℤ) (layer_height : ℚ)
    (st : List (Rect × PlatTag) × R.σ) (layerIdx : ℕ) : List (Rect × PlatTag) × R.σ :=
  let base : ℚ := 120 + layer_height * (layerIdx : ℚ)
  let rng : ℚ := layer_height * (6/10)
  let count : ℤ := remaining.ediv num_layers +
    (if (layerIdx : ℤ) = num_layers - 1 then remaining.emod num_layers else 0)
  iterN (placeOne R layerIdx base rng) count.toNat st

/-- The randomized part of _create_platforms: the first layer near the
ground, then the upper layers. -/
def createPlatformRects (R : RandomSource) (level : ℤ) (s : R.σ) :
    List (Rect × PlatTag) × R.σ :=
  let num_platforms : ℤ := 5 + min 4 (level.ediv 2)
  let layer1_count : ℤ := max 2 (num_platforms.ediv 3)
  let st := iterN (layer1Step R) layer1_count.toNat ([], s)
  let remaining : ℤ := num_platforms - layer1_count
  let num_layers : ℤ := min 4 (max 2 (remaining.ediv 2))
  let layer_height : ℚ := ((groundLevel - 60 - 120 : ℤ) : ℚ) / (num_layers : ℚ)
  (List.range num_layers.toNat).foldl (layerStep R num_layers remaining layer_height) st

/-- Game._create_platforms with provenance tags: the ground platform first,
then the generated rectangles in emission order.  The incoming state s0
models the global random-module state, which random.seed(level * 42) replaces
before any draw is made. -/
def create_platforms_tagged (R : RandomSource) (s0 : R.σ) (level : ℤ) :
    List (Rect × PlatTag) × R.σ :=
  let s := R.seed (level * 42)
  let res := createPlatformRects R level s
  ((groundRect, PlatTag.ground) :: res.1, res.2)

/-- Game._create_platforms: the emitted platform list. -/
def create_platforms (R : RandomSource) (s0 : R.σ) (level : ℤ) : List Platform :=
  (create_platforms_tagged R s0 level).1.map (fun e => ⟨e.1, PLATFORM_COLOR⟩)

/-- Reachability obligation of an emitted rectangle relative to the
rectangles emitted before it: reachable from the ground reference or from
some earlier rectangle. -/
def ReachOk (pre : List (Rect × PlatTag)) (r : Rect) : Prop :=
  can_reach groundCheckRect r maxJumpHeight maxJumpDistance = true ∨
  ∃ q ∈ pre, can_reach q.1 r maxJumpHeight maxJumpDistance = true

/-- Generator invariant: every first-layer or checked rectangle in the list
satisfies ReachOk with respect to its predecessors. -/
def GenInv (l : List (Rect × PlatTag)) : Prop :=
  ∀ pre r tag post, l = pre ++ (r, tag) :: post →
    (tag = PlatTag.layer1 ∨ tag = PlatTag.checked) → ReachOk pre r

/-! Alien creation and the setup-level arity bug (C2). -/

/-- Python runtime errors that the embedded fragment can raise. -/
inductive PyError
  | typeError
deriving DecidableEq, Repr

/-- Number of parameters Alien.__init__ accepts besides self (entities.py
line 375: position and platform). -/
def alienInitParamCount : ℕ := 2

/-- Number of arguments Game._create_aliens passes to entities.Alien
(main.py line 329: position, platform and the level's alien speed). -/
def alienCallArgCount : ℕ := 3

/-- Python call semantics of the Alien construction in _create_aliens: the
call runs Alien.__init__ only when the argument count matches the callee's
parameter count, and raises TypeError otherwise. -/
def alienCall (position : ℤ × ℤ) (platform : Platform) (speed : ℚ) : Except PyError Alien :=
  if alienCallArgCount = alienInitParamCount then Except.ok (Alien.init position platform)
  else Except.error PyError.typeError

/-- Game._create_aliens: select up to alien_count platforms above the ground
and construct one Alien per selection; the first raising construction aborts
the loop exactly as Python execution would. -/
def create_aliens (R : RandomSource) (platforms : List Platform) (cfg : LevelConfig)
    (s : R.σ) : Except PyError (List Alien) × R.σ :=
  let available := platforms.filter (fun p => decide (p.rect.y < HEIGHT - GROUND_HEIGHT))
  if available.isEmpty then (Except.ok [], s)
  else
    let num_aliens : ℤ := min cfg.alien_count (available.length : ℤ)
    let sel := R.sample s available num_aliens.toNat
    (sel.1.mapM (fun p => alienCall (p.rect.centerx, p.rect.y) p cfg.alien_speed), sel.2)

/-- The layout and alien part of Game._setup_level: recompute the level
config, regenerate the platforms, then create the aliens. -/
def setup_level_aliens (R : RandomSource) (s0 : R.σ) (level : ℤ) :
    Except PyError (List Alien) × R.σ :=
  let cfg := LevelConfig.get_level_config level
  let platforms := create_platforms R s0 level
  create_aliens R platforms cfg (create_platforms_tagged R s0 level).2

/-! Theorems. -/

/-! Helper lemmas about the astronaut input phase. -/

theorem gravityStep_on_ground (a : Astronaut) (dt : ℚ) :
    (astronautGravityStep a dt).on_ground = a.on_ground := rfl

theorem gravityStep_vy (a : Astronaut) (dt : ℚ) :
    (astronautGravityStep a dt).velocity.2 = a.velocity.2 + a.gravity * dt := rfl

theorem horizontalStep_vy (a : Astronaut) (mL mR : Bool) :
    (astronautHorizontalStep a mL mR).velocity.2 = a.velocity.2 := by
  unfold astronautHorizontalStep
  split_ifs <;> rfl

theorem horizontalStep_on_ground (a : Astronaut) (mL mR : Bool) :
    (astronautHorizontalStep a mL mR).on_ground = a.on_ground := by
  unfold astronautHorizontalStep
  split_ifs <;> rfl

theorem horizontalStep_jump_strength (a : Astronaut) (mL mR : Bool) :
    (astronautHorizontalStep a mL mR).jump_strength = a.jump_strength := by
  unfold astronautHorizontalStep
  split_ifs <;> rfl

/-- C9: with on_ground true, an update tick whose input includes the jump
command sets the vertical velocity to exactly -jumpStrength (the gravity
contribution of the tick is overwritten) and clears on_ground; while airborne
a held jump command changes nothing, so the vertical velocity after the input
phase is just the gravity-integrated one and on_ground stays false. -/
theorem astronaut_jump_spec (a : Astronaut) (dt : ℚ) (mL mR : Bool) :
    (a.on_ground = true →
      (astronautInputPhase a dt mL mR true).velocity.2 = -a.jump_strength ∧
      (astronautInputPhase a dt mL mR true).on_ground = false) ∧
    (a.on_ground = false → ∀ j : Bool,
      (astronautInputPhase a dt mL mR j).velocity.2 = a.velocity.2 + a.gravity * dt ∧
      (astronautInputPhase a dt mL mR j).on_ground = false) := by
  constructor
  · intro hg
    unfold astronautInputPhase astronautJumpStep
    rw [horizontalStep_on_ground, gravityStep_on_ground, hg]
    rw [if_pos (by rw [Bool.and_true])]
    rw [horizontalStep_jump_strength]
    exact ⟨rfl, rfl⟩
  · intro hg j
    unfold astronautInputPhase astronautJumpStep
    rw [horizontalStep_on_ground, gravityStep_on_ground, hg]
    rw [if_neg (by rw [Bool.and_false]; exact Bool.false_ne_true)]
    rw [horizontalStep_vy, gravityStep_vy, horizontalStep_on_ground, gravityStep_on_ground, hg]
    exact ⟨rfl, rfl⟩

theorem astronaut_jump_spec_witness :
    (astronautInputPhase witnessGroundedAstronaut (1/60) false false true).velocity.2 = -600 ∧
    (astronautInputPhase witnessGroundedAstronaut (1/60) false false true).on_ground = false ∧
    (astronautInputPhase witnessAirborneAstronaut (1/60) false false true).velocity.2 =
      -100 + 800 * (1/60) := by
  have h1 := (astronaut_jump_spec witnessGroundedAstronaut (1/60) false false).1 rfl
  have h2 := (astronaut_jump_spec witnessAirborneAstronaut (1/60) false false).2 rfl true
  exact ⟨h1.1, h1.2, h2.1⟩

/-- C3 counterexample: a ship-variant projectile fully past the left edge is
classified offscreen even though its left edge does not exceed the world
width, refuting the claim that the rightward overflow test is the only rule. -/
theorem laser_offscreen_counterexample :
    Laser.is_offscreen ⟨⟨-30, 10, 18, 6⟩, (-400, 0)⟩ = true ∧
    ¬(Rect.left ⟨-30, 10, 18, 6⟩ > WIDTH) := by
  constructor
  · rfl
  · decide

/-- C3 amended: is_offscreen returns true exactly when the projectile's left
edge passes the world width or its right edge passes below zero, so leftward
projectiles do expire once fully past the left edge. -/
theorem laser_offscreen_iff (l : Laser) :
    l.is_offscreen = true ↔ (l.rect.left > WIDTH ∨ l.rect.right < 0) := by
  simp [Laser.is_offscreen]

/-- C8: for both actors, try_shoot fails and changes nothing while the weapon
cooldown timer is positive; otherwise it succeeds, appends exactly one
projectile at the actor's leading edge, and resets the timer to the
configured cooldown constant. -/
theorem tryShoot_cooldown_spec (p : Player) (a : Astronaut) :
    (p.cooldown_timer > 0 → Player.try_shoot p = (false, p)) ∧
    (¬ p.cooldown_timer > 0 →
      (Player.try_shoot p).1 = true ∧
      (∃ l, (Player.try_shoot p).2.lasers = p.lasers ++ [l] ∧ l.rect.left = p.rect.right) ∧
      (Player.try_shoot p).2.cooldown_timer = p.cooldown) ∧
    (a.cooldown_timer > 0 → Astronaut.try_shoot a = (false, a)) ∧
    (¬ a.cooldown_timer > 0 →
      (Astronaut.try_shoot a).1 = true ∧
      (∃ l, (Astronaut.try_shoot a).2.lasers = a.lasers ++ [l] ∧
        (a.facing_right = true → l.rect.left = a.rect.right) ∧
        (a.facing_right = false → l.rect.right = a.rect.left)) ∧
      (Astronaut.try_shoot a).2.cooldown_timer = a.cooldown) := by
  refine ⟨fun h => ?_, fun h => ?_, fun h => ?_, fun h => ?_⟩
  · simp [Player.try_shoot, h]
  · exact ⟨by simp [Player.try_shoot, h],
      ⟨⟨⟨p.rect.right, p.rect.centery - LASER_SIZE.2 / 2, LASER_SIZE.1, LASER_SIZE.2⟩,
         (LASER_SPEED, 0)⟩, by simp [Player.try_shoot, h], rfl⟩,
      by simp [Player.try_shoot, h]⟩
  · simp [Astronaut.try_shoot, h]
  · refine ⟨by simp [Astronaut.try_shoot, h], ?_, by simp [Astronaut.try_shoot, h]⟩
    by_cases hf : a.facing_right
    · exact ⟨⟨⟨a.rect.right, a.rect.centery - ASTRONAUT_LASER_SIZE.2 / 2,
          ASTRONAUT_LASER_SIZE.1, ASTRONAUT_LASER_SIZE.2⟩, (ASTRONAUT_LASER_SPEED, 0)⟩,
        by simp [Astronaut.try_shoot, h, hf], fun _ => rfl,
        fun hc => by rw [hf] at hc; exact Bool.noConfusion hc⟩
    · refine ⟨⟨⟨a.rect.left - ASTRONAUT_LASER_SIZE.1, a.rect.centery - ASTRONAUT_LASER_SIZE.2 / 2,
          ASTRONAUT_LASER_SIZE.1, ASTRONAUT_LASER_SIZE.2⟩, (-ASTRONAUT_LASER_SPEED, 0)⟩,
        by simp [Astronaut.try_shoot, h, hf], fun hc => absurd hc hf, fun _ => ?_⟩
      show a.rect.left - ASTRONAUT_LASER_SIZE.1 + ASTRONAUT_LASER_SIZE.1 = a.rect.left
      omega

theorem tryShoot_cooldown_spec_witness :
    Player.try_shoot witnessPlayerCooling = (false, witnessPlayerCooling) ∧
    (Player.try_shoot witnessPlayerReady).1 = true ∧
    Astronaut.try_shoot witnessAstronautCooling = (false, witnessAstronautCooling) ∧
    (Astronaut.try_shoot witnessGroundedAstronaut).1 = true := by
  refine ⟨(tryShoot_cooldown_spec witnessPlayerCooling witnessAstronautCooling).1 ?_,
    ((tryShoot_cooldown_spec witnessPlayerReady witnessAstronautCooling).2.1 ?_).1,
    (tryShoot_cooldown_spec witnessPlayerReady witnessAstronautCooling).2.2.1 ?_,
    ((tryShoot_cooldown_spec witnessPlayerReady witnessGroundedAstronaut).2.2.2 ?_).1⟩
  · with_unfolding_all decide
  · with_unfolding_all decide
  · with_unfolding_all decide
  · with_unfolding_all decide

/-- C4 amended: whenever the actor's velocity along the resolved axis is
nonzero at a collision pass, the push-out leaves zero overlap between the
actor and the platform that triggered the resolution (the first colliding
platform of the scan); with zero velocity along the axis the pass performs no
push-out. -/
theorem collide_eq_true_iff (a b : Rect) :
    collide a b = true ↔
      (a.x < b.x + b.w ∧ a.x + a.w > b.x ∧ a.y < b.y + b.h ∧ a.y + a.h > b.y) := by
  simp [collide, and_assoc]

theorem collision_pass_pushout (a : Astronaut) (platforms : List Platform) (p : Platform)
    (hfind : platforms.find? (fun q => collide a.rect q.rect) = some p) :
    (a.velocity.1 ≠ 0 → collide (astronautResolveHorizontal a platforms).rect p.rect = false) ∧
    (a.velocity.2 ≠ 0 → collide (astronautResolveVertical a platforms).rect p.rect = false) := by
  constructor
  · intro hv
    rcases lt_or_gt_of_ne hv with hneg | hpos
    · have hrect : (astronautResolveHorizontal a platforms).rect =
          { a.rect with x := p.rect.right } := by
        unfold astronautResolveHorizontal
        rw [hfind]
        simp only [if_neg hneg.asymm, if_pos hneg]
      rw [hrect, Bool.eq_false_iff]
      intro hc
      rw [collide_eq_true_iff] at hc
      simp only [Rect.right] at hc
      omega
    · have hrect : (astronautResolveHorizontal a platforms).rect =
          { a.rect with x := p.rect.left - a.rect.w } := by
        unfold astronautResolveHorizontal
        rw [hfind]
        simp only [if_pos hpos]
      rw [hrect, Bool.eq_false_iff]
      intro hc
      rw [collide_eq_true_iff] at hc
      simp only [Rect.left] at hc
      omega
  · intro hv
    rcases lt_or_gt_of_ne hv with hneg | hpos
    · have hrect : (astronautResolveVertical a platforms).rect =
          { a.rect with y := p.rect.bottom } := by
        unfold astronautResolveVertical
        rw [hfind]
        simp only [if_neg hneg.asymm, if_pos hneg]
      rw [hrect, Bool.eq_false_iff]
      intro hc
      rw [collide_eq_true_iff] at hc
      simp only [Rect.bottom] at hc
      omega
    · have hrect : (astronautResolveVertical a platforms).rect =
          { a.rect with y := p.rect.top - a.rect.h } := by
        unfold astronautResolveVertical
        rw [hfind]
        simp only [if_pos hpos]
      rw [hrect, Bool.eq_false_iff]
      intro hc
      rw [collide_eq_true_iff] at hc
      simp only [Rect.top] at hc
      omega

/-- C4 counterexample: an actor that starts a tick overlapping a platform with
zero velocity still overlaps that platform after update returns; the platform
is the (only) one the collision scan finds in both passes, yet no push-out
happens because the velocity along each axis is zero. -/
theorem collision_pass_counterexample :
    collide overlapAstronaut.rect overlapPlatform.rect = true ∧
    (Astronaut.update overlapAstronaut 0 [overlapPlatform] false false false).rect =
      overlapAstronaut.rect ∧
    collide (Astronaut.update overlapAstronaut 0 [overlapPlatform] false false false).rect
      overlapPlatform.rect = true := by
  refine ⟨rfl, ?_, ?_⟩ <;> with_unfolding_all decide

theorem collision_pass_pushout_witness :
    collide (astronautResolveHorizontal pushoutAstronaut [overlapPlatform]).rect
      overlapPlatform.rect = false ∧
    collide (astronautResolveVertical pushoutAstronaut [overlapPlatform]).rect
      overlapPlatform.rect = false := by
  have h := collision_pass_pushout pushoutAstronaut [overlapPlatform] overlapPlatform
    (by with_unfolding_all decide)
  exact ⟨h.1 (by with_unfolding_all decide), h.2 (by with_unfolding_all decide)⟩

/-- C1: with no completion countdown running, the countdown starts exactly
when every patrol body is dead and the destroyed-meteor count has reached the
level requirement; with requiredKills 5 and killsSoFar 4 it does not start
even with no live patrol body, and with no patrol bodies at all the alien half
of the condition is trivially satisfied. -/
theorem completion_countdown_iff (aliens : List Alien) (kills required : ℤ) :
    (completionCheck 0 aliens kills required = levelCompleteMessageDuration ↔
      ((∀ al ∈ aliens, al.alive = false) ∧ required ≤ kills)) ∧
    ((∀ al ∈ aliens, al.alive = false) → completionCheck 0 aliens 4 5 = 0) ∧
    (completionCheck 0 [] kills required = levelCompleteMessageDuration ↔ required ≤ kills) := by
  have hiff : ∀ (als : List Alien) (k r : ℤ),
      (completionCheck 0 als k r = levelCompleteMessageDuration ↔
        ((∀ al ∈ als, al.alive = false) ∧ r ≤ k)) := by
    intro als k r
    unfold completionCheck
    rw [if_pos rfl]
    by_cases hc : als.countP (fun al => al.alive) = 0 ∧ k ≥ r
    · rw [if_pos hc]
      simp only [true_iff]
      refine ⟨fun al hal => ?_, hc.2⟩
      have := (List.countP_eq_zero).1 hc.1 al hal
      simpa using this
    · rw [if_neg hc]
      constructor
      · intro h0
        exact absurd h0 (by unfold levelCompleteMessageDuration; norm_num)
      · intro ⟨hdead, hkr⟩
        exfalso
        apply hc
        refine ⟨List.countP_eq_zero.2 fun al hal => ?_, hkr⟩
        simp [hdead al hal]
  refine ⟨hiff aliens kills required, ?_, ?_⟩
  · intro hdead
    unfold completionCheck
    rw [if_pos rfl, if_neg ?_]
    rintro ⟨-, hkr⟩
    omega
  · rw [hiff [] kills required]
    simp

theorem waveAdvanceStep_meteors (cfg : LevelConfig) (st : ShipWaveState) :
    (waveAdvanceStep cfg st).spawner.meteors = st.spawner.meteors ∧
    (waveAdvanceStep cfg st).spawner.spawn_interval = st.spawner.spawn_interval := by
  unfold waveAdvanceStep
  split_ifs <;> exact ⟨rfl, rfl⟩

theorem waveDisplayStep_spawner (cfg : LevelConfig) (st : ShipWaveState) :
    (waveDisplayStep cfg st).spawner = st.spawner := by
  unfold waveDisplayStep
  dsimp only
  split_ifs <;> rfl

/-- C7: in a Ship-mode tick with the kill target unmet, the spawner update is
invoked no matter what the wave bookkeeping holds (it can only have touched
the spawn timer, never the meteor collection or the interval); with the
target met, the resulting meteors are exactly the integrated-and-pruned
existing ones and the spawn timer is untouched, so no new body appears. -/
theorem spawning_gated_only_by_kills (R : RandomSource) (cfg : LevelConfig)
    (st : ShipWaveState) (dt : ℚ) (s : R.σ) :
    (cfg.meteors_destroyed < cfg.required_meteors →
      ∃ sp1, sp1.meteors = st.spawner.meteors ∧
        sp1.spawn_interval = st.spawner.spawn_interval ∧
        (shipMeteorPhase R cfg st dt s).1.spawner = (MeteorSpawner.update R sp1 dt s).1) ∧
    (cfg.required_meteors ≤ cfg.meteors_destroyed →
      (shipMeteorPhase R cfg st dt s).1.spawner.meteors =
        (st.spawner.meteors.map (fun m => Meteor.update m dt)).filter
          (fun m => !m.is_offscreen) ∧
      (shipMeteorPhase R cfg st dt s).1.spawner.timer = st.spawner.timer) := by
  constructor
  · intro hlt
    refine ⟨(waveAdvanceStep cfg st).spawner, (waveAdvanceStep_meteors cfg st).1,
      (waveAdvanceStep_meteors cfg st).2, ?_⟩
    unfold shipMeteorPhase
    rw [if_pos hlt]
    exact waveDisplayStep_spawner cfg _
  · intro hge
    unfold shipMeteorPhase
    rw [if_neg (not_lt.mpr hge)]
    exact ⟨rfl, rfl⟩

theorem spawning_gated_only_by_kills_witness :
    (∃ sp1, sp1.meteors = witnessWaveState.spawner.meteors ∧
      sp1.spawn_interval = witnessWaveState.spawner.spawn_interval ∧
      (shipMeteorPhase lowSource witnessConfigUnmet witnessWaveState (1/60) ((0:ℤ))).1.spawner =
        (MeteorSpawner.update lowSource sp1 (1/60) ((0:ℤ))).1) ∧
    ((shipMeteorPhase lowSource witnessConfigMet witnessWaveState (1/60) ((0:ℤ))).1.spawner.meteors =
      (witnessWaveState.spawner.meteors.map (fun m => Meteor.update m (1/60))).filter
        (fun m => !m.is_offscreen)) := by
  refine
    ⟨(spawning_gated_only_by_kills lowSource witnessConfigUnmet witnessWaveState (1/60) ((0:ℤ))).1 ?_,
    ((spawning_gated_only_by_kills lowSource witnessConfigMet witnessWaveState (1/60) ((0:ℤ))).2 ?_).1⟩
  · decide
  · decide

/-- C10: when the player is invulnerable, a meteor contact removes that meteor
from the spawner's collection and leaves the player (and so the
invulnerability timer), the lives, the score and the game state unchanged. -/
theorem invulnerable_contact_frame (g : ShipCollisionState) (m : Meteor)
    (hfind : g.meteors.find? (fun m0 => collide m0.rect g.player.rect) = some m)
    (hinv : g.player.invulnerable_timer > 0) :
    (meteorPlayerCollisions g).meteors = g.meteors.erase m ∧
    (meteorPlayerCollisions g).player = g.player ∧
    (meteorPlayerCollisions g).lives = g.lives ∧
    (meteorPlayerCollisions g).score = g.score ∧
    (meteorPlayerCollisions g).state = g.state := by
  have hb : g.player.is_invulnerable = true := by
    simp [Player.is_invulnerable, hinv]
  unfold meteorPlayerCollisions
  rw [hfind]
  simp [hb]

theorem invulnerable_contact_frame_witness :
    (meteorPlayerCollisions witnessContactState).meteors =
      witnessContactState.meteors.erase witnessContactMeteor ∧
    (meteorPlayerCollisions witnessContactState).player = witnessContactState.player ∧
    (meteorPlayerCollisions witnessContactState).lives = witnessContactState.lives ∧
    (meteorPlayerCollisions witnessContactState).score = witnessContactState.score ∧
    (meteorPlayerCollisions witnessContactState).state = witnessContactState.state := by
  refine invulnerable_contact_frame witnessContactState witnessContactMeteor ?_ ?_
  · with_unfolding_all decide
  · with_unfolding_all decide

theorem completion_countdown_iff_witness :
    (completionCheck 0 [] 5 5 = levelCompleteMessageDuration ↔
      ((∀ al ∈ ([] : List Alien), al.alive = false) ∧ (5:ℤ) ≤ 5)) ∧
    completionCheck 0 [] 4 5 = 0 := by
  refine ⟨(completion_countdown_iff [] 5 5).1, ?_⟩
  exact (completion_countdown_iff [] 4 5).2.1 (fun al hal => absurd hal (List.not_mem_nil al))

/-- C5: the platform layout is a function of the level number alone; the
state the random module is in when _create_platforms runs is discarded by
random.seed(level * 42), so two calls with the same level yield identical
layouts. -/
theorem create_platforms_deterministic (R : RandomSource) (s1 s2 : R.σ) (level : ℤ) :
    create_platforms R s1 level = create_platforms R s2 level := rfl

theorem can_reach_eq_true_iff (frm dst : Rect) (mjh mjd : ℚ) :
    can_reach frm dst mjh mjd = true ↔
      (((|dst.centerx - frm.centerx| : ℤ) : ℚ) ≤ mjd ∧ frm.top - dst.top ≥ 0 ∧
        ((frm.top - dst.top : ℤ) : ℚ) ≤ mjh) := by
  simp [can_reach, and_assoc]

theorem reachOk_mono {pre pre' : List (Rect × PlatTag)} {r : Rect}
    (hsub : pre ⊆ pre') (h : ReachOk pre r) : ReachOk pre' r := by
  rcases h with h | ⟨q, hq, hr⟩
  · exact Or.inl h
  · exact Or.inr ⟨q, hsub hq, hr⟩

theorem genInv_nil : GenInv [] := by
  intro pre r tag post heq htag
  exact absurd heq (by simp)

theorem genInv_append {l : List (Rect × PlatTag)} {r : Rect} {t : PlatTag}
    (h : GenInv l)
    (hok : (t = PlatTag.layer1 ∨ t = PlatTag.checked) → ReachOk l r) :
    GenInv (l ++ [(r, t)]) := by
  intro pre r' tag post heq htag
  rcases List.eq_nil_or_concat post with rfl | ⟨post', q, rfl⟩
  · obtain ⟨hl, he⟩ := List.append_inj' heq (by simp)
    simp only [List.cons.injEq, Prod.mk.injEq, and_true] at he
    obtain ⟨hr, ht⟩ := he
    subst hl
    subst hr
    subst ht
    exact hok htag
  · have heq' : l ++ [(r, t)] = (pre ++ (r', tag) :: post') ++ [q] := by
      rw [heq, List.concat_eq_append, List.append_assoc]
      rfl
    obtain ⟨hl, -⟩ := List.append_inj' heq' (by simp)
    exact h pre r' tag post' hl htag

theorem attemptLoop_some_reach (R : RandomSource) (layerIdx : ℕ) (base rng : ℚ)
    (rects : List (Rect × PlatTag)) :
    ∀ (fuel : ℕ) (s : R.σ) (r : Rect),
      (attemptLoop R layerIdx base rng rects fuel s).1 = some r → ReachOk rects r := by
  intro fuel
  induction fuel with
  | zero =>
    intro s r h
    exact absurd h (by simp [attemptLoop])
  | succ n ih =>
    intro s r h
    simp only [attemptLoop] at h
    by_cases h1 : overlapsAny rects (attemptCandidate R base rng s).1
    · rw [if_pos h1] at h
      exact ih _ r h
    · rw [if_neg h1] at h
      by_cases h2 : reachCheck layerIdx rects (attemptCandidate R base rng s).1
      · rw [if_pos h2] at h
        have hr : (attemptCandidate R base rng s).1 = r := Option.some.inj h
        rw [← hr]
        unfold reachCheck at h2
        by_cases h0 : layerIdx = 0
        · rw [if_pos h0] at h2
          exact Or.inl h2
        · rw [if_neg h0] at h2
          rcases List.any_eq_true.1 h2 with ⟨q, hq, hcq⟩
          exact Or.inr ⟨q, hq, hcq⟩
      · rw [if_neg h2] at h
        exact ih _ r h

theorem fallbackStep_genInv (R : RandomSource) (base : ℚ)
    (st : List (Rect × PlatTag) × R.σ) (h : GenInv st.1) :
    GenInv (fallbackStep R base st).1 := by
  unfold fallbackStep
  cases hl : st.1.getLast? with
  | none => exact h
  | some last =>
    dsimp only
    split_ifs <;>
      first
        | exact h
        | exact genInv_append h (by rintro (ht | ht) <;> exact PlatTag.noConfusion ht)

theorem placeOne_genInv (R : RandomSource) (layerIdx : ℕ) (base rng : ℚ)
    (st : List (Rect × PlatTag) × R.σ) (h : GenInv st.1) :
    GenInv (placeOne R layerIdx base rng st).1 := by
  simp only [placeOne]
  cases hres : (attemptLoop R layerIdx base rng st.1 50 st.2).1 with
  | some r =>
    dsimp only
    exact genInv_append h (fun _ => attemptLoop_some_reach R layerIdx base rng st.1 50 st.2 r hres)
  | none =>
    dsimp only
    exact fallbackStep_genInv R base _ h

theorem layer1_rect_reaches_ground {k x w0 : ℤ}
    (hk1 : 80 ≤ k) (hk2 : k ≤ 140) (hx1 : 40 ≤ x) (hx2 : x ≤ WIDTH - 180)
    (hw1 : 120 ≤ w0) (hw2 : w0 ≤ 200) :
    can_reach groundCheckRect
      ⟨x, groundLevel - k, if x + w0 > WIDTH - 20 then WIDTH - x - 20 else w0, 20⟩
      maxJumpHeight maxJumpDistance = true := by
  have hW : WIDTH = 800 := rfl
  set w : ℤ := if x + w0 > WIDTH - 20 then WIDTH - x - 20 else w0 with hw
  have hwb : 120 ≤ w ∧ x + w ≤ 780 := by
    rw [hw]
    split_ifs with hcl <;> constructor <;> omega
  have e1 : (⟨x, groundLevel - k, w, 20⟩ : Rect).centerx = x + w / 2 := rfl
  have e2 : groundCheckRect.centerx = 400 := by decide
  have e3 : groundCheckRect.top = groundLevel := rfl
  have e4 : (⟨x, groundLevel - k, w, 20⟩ : Rect).top = groundLevel - k := rfl
  rw [can_reach_eq_true_iff]
  refine ⟨?_, by omega, ?_⟩
  · have habs : |(⟨x, groundLevel - k, w, 20⟩ : Rect).centerx - groundCheckRect.centerx| ≤ 300 := by
      rw [e1, e2, abs_le]
      omega
    have hc : ((|(⟨x, groundLevel - k, w, 20⟩ : Rect).centerx - groundCheckRect.centerx| : ℤ) : ℚ)
        ≤ ((300 : ℤ) : ℚ) := by exact_mod_cast habs
    refine le_trans hc ?_
    norm_num [maxJumpDistance, maxJumpHeight, ASTRONAUT_JUMP_STRENGTH, ASTRONAUT_GRAVITY]
  · have hdy : groundCheckRect.top - (⟨x, groundLevel - k, w, 20⟩ : Rect).top = k := by omega
    rw [hdy]
    have hc : ((k : ℤ) : ℚ) ≤ ((140 : ℤ) : ℚ) := by exact_mod_cast hk2
    refine le_trans hc ?_
    norm_num [maxJumpHeight, ASTRONAUT_JUMP_STRENGTH, ASTRONAUT_GRAVITY]

theorem layer1Step_genInv (R : RandomSource) (st : List (Rect × PlatTag) × R.σ)
    (h : GenInv st.1) : GenInv (layer1Step R st).1 := by
  unfold layer1Step
  refine genInv_append h (fun _ => Or.inl ?_)
  have hk := R.randint_mem st.2 80 140 (by norm_num)
  have hx := R.randint_mem (R.randint st.2 80 140).2 40 (WIDTH - 180) (by decide)
  have hw := R.randint_mem (R.randint (R.randint st.2 80 140).2 40 (WIDTH - 180)).2 120 200
    (by norm_num)
  exact layer1_rect_reaches_ground hk.1 hk.2 hx.1 hx.2 hw.1 hw.2

theorem iterN_preserves {α : Type} (f : α → α) (P : α → Prop)
    (hf : ∀ a, P a → P (f a)) : ∀ (n : ℕ) (a : α), P a → P (iterN f n a) := by
  intro n
  induction n with
  | zero => intro a ha; exact ha
  | succ m ih => intro a ha; exact ih (f a) (hf a ha)

theorem foldl_preserves {α β : Type} (f : α → β → α) (P : α → Prop)
    (hf : ∀ a b, P a → P (f a b)) : ∀ (l : List β) (a : α), P a → P (l.foldl f a) := by
  intro l
  induction l with
  | nil => intro a ha; exact ha
  | cons b t ih => intro a ha; exact ih (f a b) (hf a b ha)

theorem layerStep_genInv (R : RandomSource) (num_layers remaining : ℤ) (layer_height : ℚ)
    (st : List (Rect × PlatTag) × R.σ) (layerIdx : ℕ) (h : GenInv st.1) :
    GenInv (layerStep R num_layers remaining layer_height st layerIdx).1 := by
  unfold layerStep
  exact iterN_preserves _ (fun a => GenInv a.1)
    (fun a ha => placeOne_genInv R layerIdx _ _ a ha) _ st h

theorem createPlatformRects_genInv (R : RandomSource) (level : ℤ) (s : R.σ) :
    GenInv (createPlatformRects R level s).1 := by
  unfold createPlatformRects
  refine foldl_preserves _ (fun a => GenInv a.1)
    (fun a b ha => layerStep_genInv R _ _ _ a b ha) _ _ ?_
  exact iterN_preserves (layer1Step R) (fun a => GenInv a.1)
    (fun a ha => layer1Step_genInv R a ha) _ ([], s) genInv_nil

theorem genInv_cons_ground {l : List (Rect × PlatTag)} (h : GenInv l) :
    GenInv ((groundRect, PlatTag.ground) :: l) := by
  intro pre r tag post heq htag
  cases pre with
  | nil =>
    simp only [List.nil_append, List.cons.injEq, Prod.mk.injEq] at heq
    rcases htag with ht | ht <;> rw [← heq.1.2] at ht <;> exact PlatTag.noConfusion ht
  | cons g pre' =>
    simp only [List.cons_append, List.cons.injEq] at heq
    exact reachOk_mono (List.subset_cons_self g pre') (h pre' r tag post heq.2 htag)

/-- C6: every rectangle the generator emits through the checked placement
path or through the near-ground first layer is reachable, in the sense of
_can_reach with maxJumpHeight = jumpStrength^2 / (2*gravity) and
maxJumpDistance = 1.5 * maxJumpHeight, from the ground reference or from some
rectangle emitted before it; only the ground itself and fallback-placed
rectangles are exempt. -/
theorem generated_platforms_reachable (R : RandomSource) (s0 : R.σ) (level : ℤ)
    (pre : List (Rect × PlatTag)) (r : Rect) (tag : PlatTag) (post : List (Rect × PlatTag))
    (heq : (create_platforms_tagged R s0 level).1 = pre ++ (r, tag) :: post)
    (htag : tag = PlatTag.layer1 ∨ tag = PlatTag.checked) :
    can_reach groundCheckRect r maxJumpHeight maxJumpDistance = true ∨
    ∃ q ∈ pre, can_reach q.1 r maxJumpHeight maxJumpDistance = true := by
  have hinv : GenInv (create_platforms_tagged R s0 level).1 :=
    genInv_cons_ground (createPlatformRects_genInv R level (R.seed (level * 42)))
  exact hinv pre r tag post heq htag

set_option maxRecDepth 100000 in
set_option maxHeartbeats 1000000 in
theorem generated_platforms_reachable_witness :
    can_reach groundCheckRect ⟨40, 470, 120, 20⟩ maxJumpHeight maxJumpDistance = true ∨
    ∃ q ∈ [((groundRect, PlatTag.ground) : Rect × PlatTag)],
      can_reach q.1 ⟨40, 470, 120, 20⟩ maxJumpHeight maxJumpDistance = true :=
  generated_platforms_reachable lowSource ((0:ℤ)) 1
    [(groundRect, PlatTag.ground)] ⟨40, 470, 120, 20⟩ PlatTag.layer1
    [(⟨40, 470, 120, 20⟩, PlatTag.layer1), (⟨30, 120, 100, 20⟩, PlatTag.fallback),
     (⟨30, 249, 100, 20⟩, PlatTag.checked), (⟨30, 305, 100, 20⟩, PlatTag.fallback)]
    (by with_unfolding_all decide) (Or.inl rfl)

theorem exists_mem_of_append {α : Type} {l l' : List α} {P : α → Prop}
    (hpre : ∃ t, l' = l ++ t) (h : ∃ e ∈ l, P e) : ∃ e ∈ l', P e := by
  obtain ⟨t, rfl⟩ := hpre
  obtain ⟨e, he, hP⟩ := h
  exact ⟨e, List.mem_append_left t he, hP⟩

theorem fallbackStep_extend (R : RandomSource) (base : ℚ)
    (st : List (Rect × PlatTag) × R.σ) :
    ∃ t, (fallbackStep R base st).1 = st.1 ++ t := by
  unfold fallbackStep
  cases st.1.getLast? with
  | none => exact ⟨[], (List.append_nil _).symm⟩
  | some last =>
    dsimp only
    split_ifs
    all_goals first
      | exact ⟨[], (List.append_nil _).symm⟩
      | exact ⟨_, rfl⟩

theorem placeOne_extend (R : RandomSource) (layerIdx : ℕ) (base rng : ℚ)
    (st : List (Rect × PlatTag) × R.σ) :
    ∃ t, (placeOne R layerIdx base rng st).1 = st.1 ++ t := by
  simp only [placeOne]
  cases (attemptLoop R layerIdx base rng st.1 50 st.2).1 with
  | some r => exact ⟨_, rfl⟩
  | none => exact fallbackStep_extend R base _

theorem layer1Step_extend (R : RandomSource) (st : List (Rect × PlatTag) × R.σ) :
    ∃ t, (layer1Step R st).1 = st.1 ++ t := ⟨_, rfl⟩

theorem layer1Step_low (R : RandomSource) (st : List (Rect × PlatTag) × R.σ) :
    ∃ e ∈ (layer1Step R st).1, e.1.y < groundLevel := by
  unfold layer1Step
  refine ⟨_, List.mem_append_right _ (List.mem_singleton_self _), ?_⟩
  show groundLevel - (R.randint st.2 80 140).1 < groundLevel
  have hk := R.randint_mem st.2 80 140 (by norm_num)
  omega

theorem createPlatformRects_low (R : RandomSource) (level : ℤ) (s : R.σ) :
    ∃ e ∈ (createPlatformRects R level s).1, e.1.y < groundLevel := by
  unfold createPlatformRects
  refine foldl_preserves _
    (fun a : List (Rect × PlatTag) × R.σ => ∃ e ∈ a.1, e.1.y < groundLevel) ?_ _ _ ?_
  · intro a b ha
    unfold layerStep
    exact iterN_preserves _
      (fun c : List (Rect × PlatTag) × R.σ => ∃ e ∈ c.1, e.1.y < groundLevel)
      (fun c hc => exists_mem_of_append (placeOne_extend R b _ _ c) hc) _ a ha
  · have h2 : 2 ≤ max 2 ((5 + min 4 (level.ediv 2)).ediv 3) := le_max_left 2 _
    obtain ⟨m, hm⟩ : ∃ m, (max 2 ((5 + min 4 (level.ediv 2)).ediv 3)).toNat = m + 1 :=
      ⟨(max 2 ((5 + min 4 (level.ediv 2)).ediv 3)).toNat - 1, by omega⟩
    rw [hm]
    show ∃ e ∈ (iterN (layer1Step R) m (layer1Step R ([], s))).1, e.1.y < groundLevel
    refine iterN_preserves _
      (fun c : List (Rect × PlatTag) × R.σ => ∃ e ∈ c.1, e.1.y < groundLevel)
      (fun c hc => exists_mem_of_append (layer1Step_extend R c) hc) m _ ?_
    exact layer1Step_low R ([], s)

theorem mapM_alienCall_error (l : List Platform) (hl : l ≠ []) (speed : ℚ) :
    l.mapM (fun p => alienCall (p.rect.centerx, p.rect.y) p speed) =
      Except.error PyError.typeError := by
  cases l with
  | nil => exact absurd rfl hl
  | cons a t =>
    simp only [alienCall, alienCallArgCount, alienInitParamCount]
    rfl

/-- C2 refutation: for every level at least 1, the alien-creation step of
_setup_level raises TypeError, because the layout always contains a platform
above the ground, the level config requires at least one alien, and
_create_aliens calls the two-parameter Alien initializer with three
arguments; so level setup never succeeds, contradicting the claim that the
simulation core has no fatal errors. -/
theorem setup_level_raises (R : RandomSource) (s0 : R.σ) (level : ℤ) (hlevel : 1 ≤ level) :
    (setup_level_aliens R s0 level).1 = Except.error PyError.typeError := by
  obtain ⟨e, he, hey⟩ := createPlatformRects_low R level (R.seed (level * 42))
  have hmem : (⟨e.1, PLATFORM_COLOR⟩ : Platform) ∈ create_platforms R s0 level := by
    unfold create_platforms create_platforms_tagged
    exact List.mem_map_of_mem _ (List.mem_cons_of_mem _ he)
  have hmemf : (⟨e.1, PLATFORM_COLOR⟩ : Platform) ∈
      (create_platforms R s0 level).filter
        (fun p => decide (p.rect.y < HEIGHT - GROUND_HEIGHT)) := by
    rw [List.mem_filter]
    exact ⟨hmem, by simpa using hey⟩
  have hnil : (create_platforms R s0 level).filter
      (fun p => decide (p.rect.y < HEIGHT - GROUND_HEIGHT)) ≠ [] :=
    List.ne_nil_of_mem hmemf
  simp only [setup_level_aliens, create_aliens]
  rw [if_neg (by simpa [List.isEmpty_iff] using hnil)]
  apply mapM_alienCall_error
  have hlenpos : 0 < ((create_platforms R s0 level).filter
      (fun p => decide (p.rect.y < HEIGHT - GROUND_HEIGHT))).length :=
    List.length_pos.2 hnil
  have hac : (1 : ℤ) ≤ (LevelConfig.get_level_config level).alien_count := by
    show (1 : ℤ) ≤ min 8 (3 + level)
    omega
  have hmin : (1 : ℤ) ≤ min (LevelConfig.get_level_config level).alien_count
      (((create_platforms R s0 level).filter
        (fun p => decide (p.rect.y < HEIGHT - GROUND_HEIGHT))).length : ℤ) := by
    omega
  have hle : (min (LevelConfig.get_level_config level).alien_count
      (((create_platforms R s0 level).filter
        (fun p => decide (p.rect.y < HEIGHT - GROUND_HEIGHT))).length : ℤ)).toNat ≤
      ((create_platforms R s0 level).filter
        (fun p => decide (p.rect.y < HEIGHT - GROUND_HEIGHT))).length := by
    omega
  have hslen := R.sample_length (create_platforms_tagged R s0 level).2
    ((create_platforms R s0 level).filter
      (fun p => decide (p.rect.y < HEIGHT - GROUND_HEIGHT))) _ hle
  intro hcon
  rw [hcon] at hslen
  simp only [List.length_nil] at hslen
  omega

theorem setup_level_raises_witness :
    (setup_level_aliens lowSource ((0:ℤ)) 1).1 = Except.error PyError.typeError :=
  setup_level_raises lowSource ((0:ℤ)) 1 (by decide)
